import Mathlib

/-!
Verification of the sighting deduplication and matching engine of the
cat-sighting backend (`backend/main.py`).

Modelling conventions, chosen once for the whole development:

* Python `str` values are modelled as Lean `String` (or `List Char` where
  character-level reasoning is needed); Python string operations that only
  touch ASCII data (`lower`, `strip`, `split`) are modelled on ASCII, which
  covers every string the scoring engine manipulates.
* Python `float` arithmetic is modelled exactly over `ℚ`; `round(x, n)`
  (used by the endpoints only for the stored display values) is modelled as
  round-half-up at `n` decimals over `ℚ`.
* The transcendental `haversine_distance` cannot be evaluated exactly in
  `ℚ`, so the endpoints take the distance function as an explicit oracle
  parameter `hav : ℚ → ℚ → ℚ → ℚ → ℚ`.  The real formula itself is embedded
  separately over `ℝ` as `haversine_distance`, together with a proof that it
  is nonnegative, which justifies the nonnegativity hypotheses placed on
  `hav`.
* SHA-256 digests (`text_to_hash`, `make_context_hash`) are modelled by an
  abstract digest parameter `H`; the claims about these functions concern
  the exact strings fed to the digest, which are embedded faithfully.
* The SQLite store is modelled as Lean lists of rows; `SELECT ... WHERE
  id = ?` is `List.find?`, `ORDER BY id DESC` is a stable sort on the id,
  and the `analyses` upsert (`ON CONFLICT(entry_id) DO UPDATE`) is
  `upsert_analysis`.  The JSON round-trip for the stored `tags` column is
  modelled as the identity (the claims do not touch serialization).
* `MatchCandidate.scoreRaw`, `NearbySighting.distRaw`, `.candLat`,
  `.candLon` are ghost fields: the source keeps only the rounded values in
  its response objects, and the ghost fields record the raw quantities the
  endpoint computed, so that specifications can speak about them directly.
-/

/-! ## Character and string helpers (ASCII models of Python `str` methods) -/

/-- ASCII lower-casing of a single character, the model of Python
`str.lower` on the ASCII data handled by the engine. -/
def asciiLowerChar (c : Char) : Char :=
  if 'A' ≤ c ∧ c ≤ 'Z' then Char.ofNat (c.toNat + 32) else c

/-- ASCII lower-casing of a character list. -/
def asciiLower (s : List Char) : List Char := s.map asciiLowerChar

/-- Whitespace class used by Python `str.split` / `str.strip` (ASCII part). -/
def isPyWs (c : Char) : Bool :=
  c = ' ' || c = '\t' || c = '\n' || c = '\r' || c = '\x0b' || c = '\x0c'

/-- Model of Python `str.strip()`: drop leading and trailing whitespace. -/
def pyStrip (s : List Char) : List Char :=
  ((s.dropWhile isPyWs).reverse.dropWhile isPyWs).reverse

/-- Model of Python `str.rstrip()`: drop trailing whitespace. -/
def pyRstrip (s : List Char) : List Char :=
  (s.reverse.dropWhile isPyWs).reverse

/-- Fuel-driven worker for `pySplitWs`; the fuel (initially the length of
the input) only makes the recursion structural, it never runs out. -/
def splitWsF : ℕ → List Char → List (List Char)
  | 0, _ => []
  | _, [] => []
  | fuel + 1, c :: cs =>
    if isPyWs c then splitWsF fuel cs
    else
      (c :: cs.takeWhile (fun d => !isPyWs d)) ::
        splitWsF fuel (cs.dropWhile (fun d => !isPyWs d))

/-- Model of Python `str.split()` with no argument: maximal runs of
non-whitespace characters, empty pieces discarded. -/
def pySplitWs (s : List Char) : List (List Char) := splitWsF s.length s

/-- The whitespace normalization `" ".join(text.strip().split())` shared by
`baseline_summary` and `text_to_hash` in the source. -/
def normalize_ws (s : String) : String :=
  ⟨List.intercalate [' '] (pySplitWs (pyStrip s.data))⟩

/-- Source `normalize_text`: lowercase and collapse whitespace; `None` and
the empty string map to the empty string. -/
def normalize_text : Option String → String
  | none => ""
  | some s =>
    if s = "" then ""
    else ⟨List.intercalate [' '] (pySplitWs (asciiLower (pyStrip s.data)))⟩

/-- First character class of the token pattern `[a-zA-Z][a-zA-Z0-9_-]{2,}`. -/
def isAsciiAlpha (c : Char) : Bool :=
  ('a' ≤ c && c ≤ 'z') || ('A' ≤ c && c ≤ 'Z')

/-- Tail character class of the token pattern `[a-zA-Z][a-zA-Z0-9_-]{2,}`. -/
def isWordTail (c : Char) : Bool :=
  isAsciiAlpha c || ('0' ≤ c && c ≤ '9') || c = '_' || c = '-'

/-- Fuel-driven worker for `findWordTokens`.  At a letter it takes the
maximal run of tail characters (greedy regex match); the match succeeds iff
the run has at least two characters.  A failed start can never hide a later
match inside its run (the run is at most one character long in that case),
so resuming after the run is exactly `re.findall` semantics. -/
def findTokensF : ℕ → List Char → List (List Char)
  | 0, _ => []
  | _, [] => []
  | fuel + 1, c :: cs =>
    if isAsciiAlpha c then
      let run := cs.takeWhile isWordTail
      let rest := cs.dropWhile isWordTail
      if 2 ≤ run.length then (c :: run) :: findTokensF fuel rest
      else findTokensF fuel rest
    else findTokensF fuel cs

/-- Model of `re.findall(r"[a-zA-Z][a-zA-Z0-9_-]{2,}", s)`. -/
def findWordTokens (s : List Char) : List (List Char) := findTokensF s.length s

/-- Character class `[a-zA-Z']` of the sentiment token pattern. -/
def isSentChar (c : Char) : Bool := isAsciiAlpha c || c = '\''

/-- Fuel-driven worker for `findSentTokens` (maximal nonempty runs). -/
def findSentTokensF : ℕ → List Char → List (List Char)
  | 0, _ => []
  | _, [] => []
  | fuel + 1, c :: cs =>
    if isSentChar c then
      (c :: cs.takeWhile isSentChar) :: findSentTokensF fuel (cs.dropWhile isSentChar)
    else findSentTokensF fuel cs

/-- Model of `re.findall(r"[a-zA-Z']+", s)`. -/
def findSentTokens (s : List Char) : List (List Char) := findSentTokensF s.length s

/-! ## Word lists from the source -/

/-- The source's `STOPWORDS` set. -/
def STOPWORDS : List String :=
  ["the", "a", "an", "and", "or", "but", "if", "then", "so", "to", "of", "in", "on", "for", "with",
   "is", "are", "was", "were", "be", "been", "it", "this", "that", "i", "you", "we", "they", "my",
   "at", "as", "by", "from", "into", "about", "over", "after", "before", "again"]

/-- The source's `POS_WORDS` set. -/
def POS_WORDS : List String :=
  ["good", "great", "nice", "love", "fun", "happy", "win", "success", "worked", "improved"]

/-- The source's `NEG_WORDS` set. -/
def NEG_WORDS : List String :=
  ["bad", "hard", "confusing", "stuck", "fail", "error", "issue", "frustrating", "broken"]

/-! ## Tokenizer and similarity engine -/

/-- Source `tokenize_keywords`: tokens of the normalized text, stopwords
removed, collected into a set. -/
def tokenize_keywords (text : String) : Finset String :=
  (((findWordTokens (normalize_text (some text)).data).map (fun l => (⟨l⟩ : String))).filter
      (fun t => decide (t ∉ STOPWORDS))).toFinset

/-- Source `jaccard_similarity`: intersection over union, with both empty
sets (and, defensively, an empty union) mapped to `0`. -/
def jaccard_similarity (a b : Finset String) : ℚ :=
  if a = ∅ ∧ b = ∅ then 0
  else if a ∪ b = ∅ then 0
  else ((a ∩ b).card : ℚ) / ((a ∪ b).card : ℚ)

/-- Source `location_similarity`: Jaccard similarity of the tokenized
location strings. -/
def location_similarity (loc_a loc_b : String) : ℚ :=
  jaccard_similarity (tokenize_keywords loc_a) (tokenize_keywords loc_b)

/-! ## Numeric display helpers -/

/-- Round-half-up to the nearest integer, the `ℚ` model of rounding. -/
def roundQ (q : ℚ) : ℤ := ⌊q + 1/2⌋

/-- Model of Python `round(q, p)`: round to `p` decimal places. -/
def roundTo (p : ℕ) (q : ℚ) : ℚ := (roundQ (q * 10 ^ p) : ℚ) / 10 ^ p

/-- Left-pad a string with zeros to width `w` (decimal rendering helper). -/
def padLeftZeros (w : ℕ) (s : String) : String :=
  if s.length < w then (⟨List.replicate (w - s.length) '0'⟩ : String) ++ s else s

/-- Model of the f-string format `{q:.prec f}` used in the reason strings. -/
def fmtFixed (prec : ℕ) (q : ℚ) : String :=
  let m := roundQ (q * 10 ^ prec)
  let sign := if m < 0 then "-" else ""
  let n := m.natAbs
  if prec = 0 then sign ++ toString n
  else sign ++ toString (n / 10 ^ prec) ++ "." ++ padLeftZeros prec (toString (n % 10 ^ prec))

/-! ## Match scorer -/

/-- Source `compute_match_score`.  `hav` is the haversine-distance oracle
(see the module comment).  The structure follows the source: text Jaccard
similarity, then either the geographic branch (all four coordinates
present, 50/50 weighting, linear distance decay below 1000 m) or the
text-location fallback (70/30 weighting), and finally the `"low
similarity"` fallback reason when no reason was appended. -/
def compute_match_score (hav : ℚ → ℚ → ℚ → ℚ → ℚ)
    (base_text base_location cand_text cand_location : String)
    (base_lat base_lon cand_lat cand_lon : Option ℚ) : ℚ × List String :=
  let base_kw := tokenize_keywords base_text
  let cand_kw := tokenize_keywords cand_text
  let text_sim := jaccard_similarity base_kw cand_kw
  let reasons0 : List String :=
    if 0 < text_sim then ["text similarity " ++ fmtFixed 2 text_sim] else []
  let sr : ℚ × List String :=
    match base_lat, base_lon, cand_lat, cand_lon with
    | some la1, some lo1, some la2, some lo2 =>
      let distance := hav la1 lo1 la2 lo2
      let loc_score := if distance < 1000 then max 0 (1 - distance / 1000) else 0
      let reasons1 := reasons0 ++
        [if distance < 1000 then
            "distance " ++ fmtFixed 0 distance ++ "m (score " ++ fmtFixed 2 loc_score ++ ")"
          else "distance " ++ fmtFixed 0 distance ++ "m (too far)"]
      (0.5 * text_sim + 0.5 * loc_score, reasons1)
    | _, _, _, _ =>
      let loc_score :=
        if base_location ≠ "" ∧ cand_location ≠ "" then
          location_similarity base_location cand_location
        else 0
      let reasons1 :=
        if (base_location ≠ "" ∧ cand_location ≠ "") ∧ 0 < loc_score then
          reasons0 ++ ["location text similarity " ++ fmtFixed 2 loc_score]
        else reasons0
      (0.7 * text_sim + 0.3 * loc_score, reasons1)
  (sr.1, if sr.2 = [] then ["low similarity"] else sr.2)

/-! ## The real haversine formula, embedded over `ℝ` -/

/-- Source `haversine_distance` (degrees in, meters out), embedded over the
real numbers.  It is only used to justify the nonnegativity hypothesis on
the `hav` oracle. -/
noncomputable def haversine_distance (lat1 lon1 lat2 lon2 : ℝ) : ℝ :=
  let lat1r := lat1 * Real.pi / 180
  let lon1r := lon1 * Real.pi / 180
  let lat2r := lat2 * Real.pi / 180
  let lon2r := lon2 * Real.pi / 180
  let dlat := lat2r - lat1r
  let dlon := lon2r - lon1r
  let a := Real.sin (dlat / 2) ^ 2 + Real.cos lat1r * Real.cos lat2r * Real.sin (dlon / 2) ^ 2
  6371000 * (2 * Real.arcsin (Real.sqrt a))

/-! ## Stable insertion sort (model of Python's stable `list.sort`) -/

/-- Stable insertion of `x`: `lt x y = true` means `x` must come strictly
after `y`, so `x` is placed before the first element it need not follow.
Elements the comparator ties are kept in their existing order, which is
exactly the stability guarantee of Python's `list.sort`. -/
def insertOrd {α : Type} (lt : α → α → Bool) (x : α) : List α → List α
  | [] => [x]
  | y :: ys => if lt x y then y :: insertOrd lt x ys else x :: y :: ys

/-- Stable insertion sort driven by the comparator `lt` (see `insertOrd`). -/
def sortOrd {α : Type} (lt : α → α → Bool) : List α → List α
  | [] => []
  | x :: xs => insertOrd lt x (sortOrd lt xs)

/-! ## Store rows and API response shapes -/

/-- Error shape of the API layer (`HTTPException(status, detail)`). -/
inductive HErr where
  | httpError (status : ℕ) (detail : String)
  deriving DecidableEq

/-- A row of the `entries` table (the fields the engine reads). -/
structure EntryRow where
  id : ℤ
  text : String
  createdAt : String
  nickname : Option String
  location : Option String
  location_normalized : Option String
  location_lat : Option ℚ
  location_lon : Option ℚ
  cat_id : Option ℤ
  deriving DecidableEq

/-- A row of the `cats` table. -/
structure CatRow where
  id : ℤ
  name : Option String
  createdAt : String
  deriving DecidableEq

/-- Response item of `find_matches`.  `scoreRaw` is a ghost field holding
the unrounded score (the source keeps only `score = round(raw, 3)`). -/
structure MatchCandidate where
  entry_id : ℤ
  candidate_id : ℤ
  score : ℚ
  scoreRaw : ℚ
  reasons : List String
  candidate_nickname : Option String
  candidate_location : Option String
  candidate_text : String
  candidate_createdAt : String
  deriving DecidableEq

/-- Response item of `find_nearby_sightings`.  `distRaw`, `candLat`,
`candLon` are ghost fields holding the raw distance and the candidate's
coordinates (the source keeps only `distance_meters = round(raw, 1)`). -/
structure NearbySighting where
  entry_id : ℤ
  distance_meters : ℚ
  distRaw : ℚ
  candLat : ℚ
  candLon : ℚ
  location : Option String
  location_normalized : Option String
  text_preview : String
  cat_id : Option ℤ
  cat_name : Option String
  created_at : String
  match_score : ℚ
  reasons : List String
  deriving DecidableEq

/-- Response of `analyze_and_store`. -/
structure EntryAnalysis where
  entry_id : ℤ
  summary : String
  tags : List String
  sentiment : String
  updatedAt : String
  deriving DecidableEq

/-- A row of the `analyses` table (tags stored directly, see module
comment). -/
structure AnalysisRow where
  entry_id : ℤ
  text_hash : String
  summary : String
  tags : List String
  sentiment : String
  createdAt : String
  updatedAt : String
  deriving DecidableEq

/-- Unwrap a successful endpoint result; errors give the empty list. -/
def okList {α : Type} : Except HErr (List α) → List α
  | .ok l => l
  | .error _ => []

/-! ## Candidate search endpoints -/

/-- Source `find_matches` (route `GET /entries/{id}/matches`).  The route
validator constrains `top_k` to `[1, 20]` and `min_score` to `[0, 1]`; the
body additionally clamps the cut to `max 1 (min top_k 20)`. -/
def find_matches (hav : ℚ → ℚ → ℚ → ℚ → ℚ) (entries : List EntryRow)
    (entry_id : ℤ) (top_k : ℕ) (min_score : ℚ) : Except HErr (List MatchCandidate) :=
  match entries.find? (fun r => decide (r.id = entry_id)) with
  | none => .error (.httpError 404 "Entry not found")
  | some base =>
    let rows := sortOrd (fun a b => decide (a.id < b.id))
      (entries.filter (fun r => decide (r.id ≠ entry_id)))
    let candidates := rows.filterMap (fun r =>
      let sc := compute_match_score hav base.text (base.location.getD "") r.text
        (r.location.getD "") base.location_lat base.location_lon r.location_lat r.location_lon
      if min_score ≤ sc.1 then
        some { entry_id := entry_id, candidate_id := r.id, score := roundTo 3 sc.1,
               scoreRaw := sc.1, reasons := sc.2, candidate_nickname := r.nickname,
               candidate_location := r.location, candidate_text := r.text,
               candidate_createdAt := r.createdAt }
      else none)
    .ok ((sortOrd (fun a b => decide (a.score < b.score)) candidates).take
      (max 1 (min top_k 20)))

/-- Source `find_nearby_sightings` (route `GET /entries/{id}/nearby`).  The
route validator constrains `radius_meters` to `[1, 5000]` and `top_k` to
`[1, 50]`. -/
def find_nearby_sightings (hav : ℚ → ℚ → ℚ → ℚ → ℚ) (entries : List EntryRow)
    (cats : List CatRow) (entry_id : ℤ) (radius_meters : ℚ) (top_k : ℕ)
    (include_assigned : Bool) : Except HErr (List NearbySighting) :=
  match entries.find? (fun r => decide (r.id = entry_id)) with
  | none => .error (.httpError 404 "Entry not found")
  | some base =>
    match base.location_lat, base.location_lon with
    | some base_lat, some base_lon =>
      let rows := sortOrd (fun a b => decide (a.id < b.id))
        (entries.filter (fun r =>
          decide (r.id ≠ entry_id) && (r.location_lat ≠ none) && (r.location_lon ≠ none) &&
            (include_assigned || decide (r.cat_id = none))))
      let nearby := rows.filterMap (fun r =>
        match r.location_lat, r.location_lon with
        | some cand_lat, some cand_lon =>
          let distance := hav base_lat base_lon cand_lat cand_lon
          if radius_meters < distance then none
          else
            let sc := compute_match_score hav base.text (base.location.getD "") r.text
              (r.location.getD "") (some base_lat) (some base_lon) (some cand_lat) (some cand_lon)
            some { entry_id := r.id, distance_meters := roundTo 1 distance, distRaw := distance,
                   candLat := cand_lat, candLon := cand_lon, location := r.location,
                   location_normalized := r.location_normalized,
                   text_preview :=
                     if 100 < r.text.length then r.text.take 100 ++ "..." else r.text,
                   cat_id := r.cat_id,
                   cat_name :=
                     match r.cat_id with
                     | none => none
                     | some cid => (cats.find? (fun c => decide (c.id = cid))).bind (fun c => c.name),
                   created_at := r.createdAt, match_score := roundTo 3 sc.1, reasons := sc.2 }
        | _, _ => none)
      .ok ((sortOrd (fun a b => decide (b.distance_meters < a.distance_meters)) nearby).take top_k)
    | _, _ =>
      .error (.httpError 400
        "Entry has no coordinates. Use POST /entries/\x7bid\x7d/normalize-location first.")

/-! ## Baseline analyzer -/

/-- Source `baseline_summary` (callers use `max_len = 160`). -/
def baseline_summary (text : String) (max_len : ℕ) : String :=
  let cleaned := normalize_ws text
  if cleaned.length ≤ max_len then cleaned
  else (⟨pyRstrip (cleaned.data.take (max_len - 1))⟩ : String) ++ "…"

/-- First-occurrence deduplication, the key order of a Python `Counter`
built from a token list. -/
def dedupFirst (l : List String) : List String :=
  l.foldl (fun acc x => if x ∈ acc then acc else acc ++ [x]) []

/-- Model of `Counter(tokens).most_common(k)` restricted to the words:
keys in first-occurrence order, stably sorted by descending count, first
`k` kept. -/
def most_common (k : ℕ) (tokens : List String) : List String :=
  (sortOrd (fun a b => decide (tokens.count a < tokens.count b)) (dedupFirst tokens)).take k

/-- Source `baseline_tags` (callers use `k = 5`). -/
def baseline_tags (text : String) (k : ℕ) : List String :=
  let tokens := (findWordTokens (asciiLower text.data)).map (fun l => (⟨l⟩ : String))
  most_common k (tokens.filter (fun t => decide (t ∉ STOPWORDS)))

/-- Source `baseline_sentiment`. -/
def baseline_sentiment (text : String) : String :=
  let tokens := ((findSentTokens (asciiLower text.data)).map (fun l => (⟨l⟩ : String))).toFinset
  let pos := (tokens ∩ POS_WORDS.toFinset).card
  let neg := (tokens ∩ NEG_WORDS.toFinset).card
  if neg < pos then "positive" else if pos < neg then "negative" else "neutral"

/-! ## Analysis persistence -/

/-- Source `text_to_hash`: digest of the whitespace-normalized text, with
the digest abstracted as `H`. -/
def text_to_hash (H : String → String) (text : String) : String := H (normalize_ws text)

/-- The `INSERT ... ON CONFLICT(entry_id) DO UPDATE` upsert of the
`analyses` table: replace every field except `createdAt` when the key
exists, append a fresh row otherwise. -/
def upsert_analysis (analyses : List AnalysisRow) (eid : ℤ) (text_hash summary : String)
    (tags : List String) (sentiment now : String) : List AnalysisRow :=
  if analyses.any (fun a => decide (a.entry_id = eid)) then
    analyses.map (fun a =>
      if a.entry_id = eid then
        { entry_id := a.entry_id, text_hash := text_hash, summary := summary, tags := tags,
          sentiment := sentiment, createdAt := a.createdAt, updatedAt := now }
      else a)
  else
    analyses ++ [{ entry_id := eid, text_hash := text_hash, summary := summary, tags := tags,
                   sentiment := sentiment, createdAt := now, updatedAt := now }]

/-- Source `analyze_and_store` (route `POST /entries/{id}/analyze`): cache
lookup keyed by the text hash, recompute-and-upsert on miss.  Returns the
response together with the resulting `analyses` table. -/
def analyze_and_store (H : String → String) (now : String) (entries : List EntryRow)
    (analyses : List AnalysisRow) (entry_id : ℤ) :
    Except HErr (EntryAnalysis × List AnalysisRow) :=
  match entries.find? (fun r => decide (r.id = entry_id)) with
  | none => .error (.httpError 404 "Entry not found")
  | some entry =>
    let current_hash := text_to_hash H entry.text
    match analyses.find? (fun a => decide (a.entry_id = entry_id)) with
    | some ex =>
      if ex.text_hash = current_hash then
        .ok ({ entry_id := ex.entry_id, summary := ex.summary, tags := ex.tags,
               sentiment := ex.sentiment, updatedAt := ex.updatedAt }, analyses)
      else
        .ok ({ entry_id := entry_id, summary := baseline_summary entry.text 160,
               tags := baseline_tags entry.text 5, sentiment := baseline_sentiment entry.text,
               updatedAt := now },
          upsert_analysis analyses entry_id current_hash (baseline_summary entry.text 160)
            (baseline_tags entry.text 5) (baseline_sentiment entry.text) now)
    | none =>
      .ok ({ entry_id := entry_id, summary := baseline_summary entry.text 160,
             tags := baseline_tags entry.text 5, sentiment := baseline_sentiment entry.text,
             updatedAt := now },
        upsert_analysis analyses entry_id current_hash (baseline_summary entry.text 160)
          (baseline_tags entry.text 5) (baseline_sentiment entry.text) now)

/-! ## Context hash for cat insights -/

/-- The separator `"\n---\n"` of `make_context_hash`, as characters. -/
def SEP : List Char := ['\n', '-', '-', '-', '\n']

/-- The string fed to the digest: the Python `"\n---\n".join(parts)`, with
parts as character lists. -/
def joinSep : List (List Char) → List Char
  | [] => []
  | [p] => p
  | p :: ps => p ++ (SEP ++ joinSep ps)

/-- Source `make_context_hash`, with the digest abstracted as `H`. -/
def make_context_hash (H : List Char → String) (parts : List (List Char)) : String :=
  H (joinSep parts)

/-! ## Lemmas about the stable insertion sort -/

theorem insertOrd_perm {α : Type} (lt : α → α → Bool) (x : α) (l : List α) :
    List.Perm (insertOrd lt x l) (x :: l) := by
  induction l with
  | nil => rfl
  | cons y ys ih =>
    simp only [insertOrd]
    by_cases h : lt x y
    · simpa [h] using (ih.cons y).trans (List.Perm.swap x y ys)
    · simp [h]

theorem sortOrd_perm {α : Type} (lt : α → α → Bool) (l : List α) :
    List.Perm (sortOrd lt l) l := by
  induction l with
  | nil => rfl
  | cons x xs ih => exact (insertOrd_perm lt x (sortOrd lt xs)).trans (ih.cons x)

theorem mem_sortOrd {α : Type} {lt : α → α → Bool} {l : List α} {a : α} :
    a ∈ sortOrd lt l ↔ a ∈ l := (sortOrd_perm lt l).mem_iff

theorem pairwise_insertOrd {α : Type} (lt : α → α → Bool)
    (hasymm : ∀ a b, lt a b = true → lt b a = false)
    (hneg : ∀ a b c, lt a b = false → lt b c = false → lt a c = false)
    (x : α) (l : List α) (h : l.Pairwise (fun a b => lt a b = false)) :
    (insertOrd lt x l).Pairwise (fun a b => lt a b = false) := by
  induction l with
  | nil => simp [insertOrd]
  | cons y ys ih =>
    rw [List.pairwise_cons] at h
    obtain ⟨hy, hys⟩ := h
    simp only [insertOrd]
    by_cases hxy : lt x y
    · simp only [hxy, if_true]
      rw [List.pairwise_cons]
      refine ⟨?_, ih hys⟩
      intro z hz
      rcases List.mem_cons.mp ((insertOrd_perm lt x ys).mem_iff.mp hz) with hzx | hzys
      · rw [hzx]; exact hasymm x y hxy
      · exact hy z hzys
    · rw [if_neg hxy]
      rw [List.pairwise_cons]
      refine ⟨?_, List.pairwise_cons.mpr ⟨hy, hys⟩⟩
      intro z hz
      have hxyf : lt x y = false := by
        cases hv : lt x y with
        | false => rfl
        | true => exact absurd hv hxy
      rcases List.mem_cons.mp hz with hzy | hzys
      · rw [hzy]; exact hxyf
      · exact hneg x y z hxyf (hy z hzys)

theorem pairwise_sortOrd {α : Type} (lt : α → α → Bool)
    (hasymm : ∀ a b, lt a b = true → lt b a = false)
    (hneg : ∀ a b c, lt a b = false → lt b c = false → lt a c = false)
    (l : List α) : (sortOrd lt l).Pairwise (fun a b => lt a b = false) := by
  induction l with
  | nil => simp [sortOrd]
  | cons x xs ih => exact pairwise_insertOrd lt hasymm hneg x (sortOrd lt xs) ih

theorem pairwise_tie_insertOrd {α : Type} (lt : α → α → Bool) (S : α → α → Prop)
    (x : α) (l : List α)
    (hx : ∀ z ∈ l, S x z)
    (h : l.Pairwise (fun a b => lt a b = false → lt b a = false → S a b)) :
    (insertOrd lt x l).Pairwise (fun a b => lt a b = false → lt b a = false → S a b) := by
  induction l with
  | nil => simp [insertOrd]
  | cons y ys ih =>
    rw [List.pairwise_cons] at h
    obtain ⟨hy, hys⟩ := h
    simp only [insertOrd]
    by_cases hxy : lt x y
    · simp only [hxy, if_true]
      rw [List.pairwise_cons]
      refine ⟨?_, ih (fun z hz => hx z (List.mem_cons_of_mem y hz)) hys⟩
      intro z hz
      rcases List.mem_cons.mp ((insertOrd_perm lt x ys).mem_iff.mp hz) with hzx | hzys
      · rw [hzx]
        intro _ h2
        rw [hxy] at h2
        exact absurd h2 (by simp)
      · exact hy z hzys
    · rw [if_neg hxy]
      rw [List.pairwise_cons]
      refine ⟨?_, List.pairwise_cons.mpr ⟨hy, hys⟩⟩
      intro z hz _ _
      exact hx z hz

theorem pairwise_tie_sortOrd {α : Type} (lt : α → α → Bool) (S : α → α → Prop)
    (l : List α) (h : l.Pairwise S) :
    (sortOrd lt l).Pairwise (fun a b => lt a b = false → lt b a = false → S a b) := by
  induction l with
  | nil => simp [sortOrd]
  | cons x xs ih =>
    rw [List.pairwise_cons] at h
    simp only [sortOrd]
    exact pairwise_tie_insertOrd lt S x (sortOrd lt xs)
      (fun z hz => h.1 z ((sortOrd_perm lt xs).mem_iff.mp hz)) (ih h.2)

theorem filter_insertOrd {α : Type} (lt : α → α → Bool) (p : α → Bool) (x : α) (l : List α)
    (hcomp : p x = true → ∀ y, lt x y = true → p y = false) :
    (insertOrd lt x l).filter p = if p x then x :: l.filter p else l.filter p := by
  induction l with
  | nil => cases hpx : p x <;> simp [insertOrd, List.filter, hpx]
  | cons y ys ih =>
    simp only [insertOrd]
    by_cases hxy : lt x y
    · simp only [hxy, if_true]
      by_cases hpx : p x
      · have hpy : p y = false := hcomp hpx y hxy
        simp [List.filter_cons, hpy, ih, hpx]
      · have hpx' : p x = false := by
          cases hv : p x with
          | false => rfl
          | true => exact absurd hv hpx
        simp [List.filter_cons, ih, hpx']
    · rw [if_neg hxy]
      by_cases hpx : p x <;> simp [List.filter_cons, hpx]

theorem filter_sortOrd {α : Type} (lt : α → α → Bool) (p : α → Bool)
    (hcomp : ∀ x y, p x = true → lt x y = true → p y = false) (l : List α) :
    (sortOrd lt l).filter p = l.filter p := by
  induction l with
  | nil => rfl
  | cons x xs ih =>
    simp only [sortOrd]
    rw [filter_insertOrd lt p x _ (fun hp y hlt => hcomp x y hp hlt)]
    by_cases hpx : p x <;> simp [List.filter_cons, hpx, ih]

/-! ## Bounds for the similarity engine -/

theorem jaccard_nonneg (a b : Finset String) : 0 ≤ jaccard_similarity a b := by
  unfold jaccard_similarity
  split
  · exact le_refl 0
  · split
    · exact le_refl 0
    · exact div_nonneg (by positivity) (by positivity)

theorem jaccard_le_one (a b : Finset String) : jaccard_similarity a b ≤ 1 := by
  unfold jaccard_similarity
  split
  · exact zero_le_one
  · split
    · exact zero_le_one
    · rename_i h1 h2
      have hpos : (0 : ℚ) < ((a ∪ b).card : ℚ) := by
        have : (a ∪ b).Nonempty := Finset.nonempty_iff_ne_empty.mpr h2
        exact_mod_cast Finset.card_pos.mpr this
      rw [div_le_one hpos]
      exact_mod_cast Finset.card_le_card (Finset.inter_subset_union)

theorem location_similarity_nonneg (x y : String) : 0 ≤ location_similarity x y :=
  jaccard_nonneg _ _

theorem location_similarity_le_one (x y : String) : location_similarity x y ≤ 1 :=
  jaccard_le_one _ _

/-- The real haversine formula never yields a negative distance; this
justifies the nonnegativity hypotheses placed on the `hav` oracle. -/
theorem haversine_distance_nonneg (lat1 lon1 lat2 lon2 : ℝ) :
    0 ≤ haversine_distance lat1 lon1 lat2 lon2 := by
  unfold haversine_distance
  have h := Real.arcsin_nonneg.mpr (Real.sqrt_nonneg
    (Real.sin ((lat2 * Real.pi / 180 - lat1 * Real.pi / 180) / 2) ^ 2 +
      Real.cos (lat1 * Real.pi / 180) * Real.cos (lat2 * Real.pi / 180) *
        Real.sin ((lon2 * Real.pi / 180 - lon1 * Real.pi / 180) / 2) ^ 2))
  positivity

/-! ## Claim C8 -/

/-- C8: `jaccard_similarity` returns intersection-over-union whenever the
union is nonempty, returns exactly `0` when both sets are empty, is
symmetric, and returns `1` on every nonempty set compared with itself. -/
theorem claim_C8_jaccard_algebra :
    (∀ a b : Finset String, (a ∪ b).Nonempty →
        jaccard_similarity a b = ((a ∩ b).card : ℚ) / ((a ∪ b).card : ℚ)) ∧
    jaccard_similarity ∅ ∅ = 0 ∧
    (∀ a b : Finset String, jaccard_similarity a b = jaccard_similarity b a) ∧
    (∀ a : Finset String, a.Nonempty → jaccard_similarity a a = 1) := by
  refine ⟨?_, ?_, ?_, ?_⟩
  · intro a b h
    have h1 : ¬(a = ∅ ∧ b = ∅) := by
      rintro ⟨rfl, rfl⟩
      simp at h
    have h2 : ¬(a ∪ b = ∅) := Finset.nonempty_iff_ne_empty.mp h
    rw [jaccard_similarity, if_neg h1, if_neg h2]
  · rfl
  · intro a b
    by_cases h : a = ∅ ∧ b = ∅
    · rw [h.1, h.2]
    · have h' : ¬(b = ∅ ∧ a = ∅) := fun hc => h ⟨hc.2, hc.1⟩
      rw [jaccard_similarity, jaccard_similarity, if_neg h, if_neg h',
        Finset.union_comm, Finset.inter_comm]
  · intro a h
    have h1 : ¬(a = ∅ ∧ a = ∅) := by
      rintro ⟨rfl, -⟩
      simp at h
    have h2 : ¬(a ∪ a = ∅) := by
      rw [Finset.union_self]
      exact Finset.nonempty_iff_ne_empty.mp h
    rw [jaccard_similarity, if_neg h1, if_neg h2, Finset.union_self, Finset.inter_self]
    exact div_self (by exact_mod_cast (Finset.card_pos.mpr h).ne')

/-- Witness for C8 at concrete sets. -/
theorem claim_C8_witness :
    jaccard_similarity {"cat"} ∅ =
      ((({"cat"} : Finset String) ∩ (∅ : Finset String)).card : ℚ) /
        ((({"cat"} : Finset String) ∪ (∅ : Finset String)).card : ℚ) ∧
    jaccard_similarity {"cat"} {"park"} = jaccard_similarity {"park"} {"cat"} ∧
    jaccard_similarity {"cat"} {"cat"} = 1 :=
  ⟨claim_C8_jaccard_algebra.1 {"cat"} ∅ (by decide),
   claim_C8_jaccard_algebra.2.2.1 {"cat"} {"park"},
   claim_C8_jaccard_algebra.2.2.2 {"cat"} (by decide)⟩

/-! ## Claim C9 -/

/-- C9: the reasons list returned by `compute_match_score` is never empty;
in particular, when nothing else produced a reason (zero text similarity,
no coordinates, blank base location) the result is exactly
`["low similarity"]`. -/
theorem fallback_ne_nil {α : Type} [DecidableEq α] (l : List α) (d : α) :
    (if l = [] then [d] else l) ≠ [] := by
  split
  · simp
  · assumption

theorem claim_C9_reasons_nonempty :
    (∀ (hav : ℚ → ℚ → ℚ → ℚ → ℚ) (bt bl ct cl : String) (blat blon clat clon : Option ℚ),
        (compute_match_score hav bt bl ct cl blat blon clat clon).2 ≠ []) ∧
    (∀ (hav : ℚ → ℚ → ℚ → ℚ → ℚ) (bt ct cl : String),
        jaccard_similarity (tokenize_keywords bt) (tokenize_keywords ct) = 0 →
        (compute_match_score hav bt "" ct cl none none none none).2 = ["low similarity"]) := by
  constructor
  · intro hav bt bl ct cl blat blon clat clon
    simp only [compute_match_score]
    exact fallback_ne_nil _ _
  · intro hav bt ct cl hts
    simp only [compute_match_score, hts]
    norm_num

/-- Witness for C9 at concrete inputs. -/
theorem claim_C9_witness :
    (compute_match_score (fun _ _ _ _ => 0) "" "" "" "" none none none none).2 ≠ [] ∧
    (compute_match_score (fun _ _ _ _ => 0) "" "" "" "" none none none none).2 =
      ["low similarity"] :=
  ⟨claim_C9_reasons_nonempty.1 (fun _ _ _ _ => 0) "" "" "" "" none none none none,
   claim_C9_reasons_nonempty.2 (fun _ _ _ _ => 0) "" "" "" rfl⟩

/-! ## Claim C1 -/

/-- C1: with all four coordinates present the score is exactly
`0.5 * text_sim + 0.5 * loc_score` with the linear distance decay below
1000 m; with any coordinate absent it is exactly
`0.7 * text_sim + 0.3 * loc_score` with the text-based location Jaccard
similarity (or 0 when either location string is empty). -/
theorem compute_match_score_fst_coords
    (hav : ℚ → ℚ → ℚ → ℚ → ℚ) (bt bl ct cl : String) (la1 lo1 la2 lo2 : ℚ) :
    (compute_match_score hav bt bl ct cl (some la1) (some lo1) (some la2) (some lo2)).1 =
      0.5 * jaccard_similarity (tokenize_keywords bt) (tokenize_keywords ct) +
      0.5 * (if hav la1 lo1 la2 lo2 < 1000 then max 0 (1 - hav la1 lo1 la2 lo2 / 1000) else 0) := by
  simp only [compute_match_score]

theorem compute_match_score_fst_fallback
    (hav : ℚ → ℚ → ℚ → ℚ → ℚ) (bt bl ct cl : String) (blat blon clat clon : Option ℚ)
    (h : blat = none ∨ blon = none ∨ clat = none ∨ clon = none) :
    (compute_match_score hav bt bl ct cl blat blon clat clon).1 =
      0.7 * jaccard_similarity (tokenize_keywords bt) (tokenize_keywords ct) +
      0.3 * (if bl ≠ "" ∧ cl ≠ "" then location_similarity bl cl else 0) := by
  rcases blat with _ | a <;> rcases blon with _ | b <;> rcases clat with _ | c <;>
    rcases clon with _ | d <;> simp only [compute_match_score]
  all_goals try exact absurd h (by simp)

theorem claim_C1_score_weighting
    (hav : ℚ → ℚ → ℚ → ℚ → ℚ) (bt bl ct cl : String) (blat blon clat clon : Option ℚ) :
    (∀ la1 lo1 la2 lo2, blat = some la1 → blon = some lo1 → clat = some la2 → clon = some lo2 →
      (compute_match_score hav bt bl ct cl blat blon clat clon).1 =
        0.5 * jaccard_similarity (tokenize_keywords bt) (tokenize_keywords ct) +
        0.5 * (if hav la1 lo1 la2 lo2 < 1000 then max 0 (1 - hav la1 lo1 la2 lo2 / 1000) else 0)) ∧
    ((blat = none ∨ blon = none ∨ clat = none ∨ clon = none) →
      (compute_match_score hav bt bl ct cl blat blon clat clon).1 =
        0.7 * jaccard_similarity (tokenize_keywords bt) (tokenize_keywords ct) +
        0.3 * (if bl ≠ "" ∧ cl ≠ "" then location_similarity bl cl else 0)) := by
  constructor
  · rintro la1 lo1 la2 lo2 rfl rfl rfl rfl
    exact compute_match_score_fst_coords hav bt bl ct cl la1 lo1 la2 lo2
  · exact compute_match_score_fst_fallback hav bt bl ct cl blat blon clat clon

/-- Witness for C1 at concrete inputs, one for each weighting branch. -/
theorem claim_C1_witness :
    ((compute_match_score (fun _ _ _ _ => 500) "tabby cat" "park" "tabby cat" "park"
        (some 1) (some 2) (some 3) (some 4)).1 =
      0.5 * jaccard_similarity (tokenize_keywords "tabby cat") (tokenize_keywords "tabby cat") +
      0.5 * (if (500 : ℚ) < 1000 then max 0 (1 - (500 : ℚ) / 1000) else 0)) ∧
    ((compute_match_score (fun _ _ _ _ => 500) "tabby cat" "park" "tabby cat" "park"
        none none none none).1 =
      0.7 * jaccard_similarity (tokenize_keywords "tabby cat") (tokenize_keywords "tabby cat") +
      0.3 * (if ("park" : String) ≠ "" ∧ ("park" : String) ≠ "" then
          location_similarity "park" "park" else 0)) :=
  ⟨(claim_C1_score_weighting (fun _ _ _ _ => 500) "tabby cat" "park" "tabby cat" "park"
      (some 1) (some 2) (some 3) (some 4)).1 1 2 3 4 rfl rfl rfl rfl,
   (claim_C1_score_weighting (fun _ _ _ _ => 500) "tabby cat" "park" "tabby cat" "park"
      none none none none).2 (Or.inl rfl)⟩

/-! ## Claim C10 -/

/-- C10: for every input built from a nonnegative distance oracle, the
score returned by `compute_match_score` lies in the interval `[0, 1]`
(both weightings are convex combinations of quantities in `[0, 1]`);
`haversine_distance_nonneg` shows the real distance function satisfies the
oracle hypothesis. -/
theorem claim_C10_score_in_unit_interval
    (hav : ℚ → ℚ → ℚ → ℚ → ℚ) (hpos : ∀ a b c d, 0 ≤ hav a b c d)
    (bt bl ct cl : String) (blat blon clat clon : Option ℚ) :
    0 ≤ (compute_match_score hav bt bl ct cl blat blon clat clon).1 ∧
    (compute_match_score hav bt bl ct cl blat blon clat clon).1 ≤ 1 := by
  have hts0 := jaccard_nonneg (tokenize_keywords bt) (tokenize_keywords ct)
  have hts1 := jaccard_le_one (tokenize_keywords bt) (tokenize_keywords ct)
  by_cases hall : ∃ a b c d, blat = some a ∧ blon = some b ∧ clat = some c ∧ clon = some d
  · obtain ⟨a, b, c, d, rfl, rfl, rfl, rfl⟩ := hall
    rw [compute_match_score_fst_coords]
    by_cases hd : hav a b c d < 1000
    · rw [if_pos hd]
      have hq : (0 : ℚ) ≤ hav a b c d / 1000 := div_nonneg (hpos a b c d) (by norm_num)
      have hm0 : (0 : ℚ) ≤ max 0 (1 - hav a b c d / 1000) := le_max_left _ _
      have hm1 : max (0 : ℚ) (1 - hav a b c d / 1000) ≤ 1 := max_le zero_le_one (by linarith)
      constructor <;> linarith
    · rw [if_neg hd]
      constructor <;> linarith
  · have h : blat = none ∨ blon = none ∨ clat = none ∨ clon = none := by
      rcases blat with _ | a
      · exact Or.inl rfl
      rcases blon with _ | b
      · exact Or.inr (Or.inl rfl)
      rcases clat with _ | c
      · exact Or.inr (Or.inr (Or.inl rfl))
      rcases clon with _ | d
      · exact Or.inr (Or.inr (Or.inr rfl))
      exact absurd ⟨a, b, c, d, rfl, rfl, rfl, rfl⟩ hall
    rw [compute_match_score_fst_fallback hav bt bl ct cl blat blon clat clon h]
    by_cases hl : bl ≠ "" ∧ cl ≠ ""
    · rw [if_pos hl]
      have hls0 := location_similarity_nonneg bl cl
      have hls1 := location_similarity_le_one bl cl
      constructor <;> linarith
    · rw [if_neg hl]
      constructor <;> linarith

/-- Witness for C10 with a concrete nonnegative oracle. -/
theorem claim_C10_witness :
    0 ≤ (compute_match_score (fun _ _ _ _ => 300) "orange cat" "park" "black cat" "downtown"
        (some 1) (some 2) (some 3) (some 4)).1 ∧
    (compute_match_score (fun _ _ _ _ => 300) "orange cat" "park" "black cat" "downtown"
        (some 1) (some 2) (some 3) (some 4)).1 ≤ 1 :=
  claim_C10_score_in_unit_interval (fun _ _ _ _ => 300) (fun _ _ _ _ => by norm_num)
    "orange cat" "park" "black cat" "downtown" (some 1) (some 2) (some 3) (some 4)

/-! ## Claim C3 -/

/-- C3: `find_nearby_sightings` fails with 404 when the entry id is
missing, and with 400 when the base entry lacks a coordinate; in both
cases the result is an error, so no result list is produced. -/
theorem claim_C3_nearby_errors
    (hav : ℚ → ℚ → ℚ → ℚ → ℚ) (entries : List EntryRow) (cats : List CatRow)
    (entry_id : ℤ) (radius_meters : ℚ) (top_k : ℕ) (include_assigned : Bool) :
    (entries.find? (fun r => decide (r.id = entry_id)) = none →
      find_nearby_sightings hav entries cats entry_id radius_meters top_k include_assigned =
        .error (.httpError 404 "Entry not found")) ∧
    (∀ base, entries.find? (fun r => decide (r.id = entry_id)) = some base →
      (base.location_lat = none ∨ base.location_lon = none) →
      find_nearby_sightings hav entries cats entry_id radius_meters top_k include_assigned =
        .error (.httpError 400
          "Entry has no coordinates. Use POST /entries/\x7bid\x7d/normalize-location first.")) := by
  constructor
  · intro h
    simp only [find_nearby_sightings, h]
  · intro base hbase hc
    simp only [find_nearby_sightings, hbase]
    rcases hc with h | h
    · rw [h]
    · rw [h]
      rcases base.location_lat with _ | lat <;> simp

/-- Witness for C3 at a concrete store (missing id, then missing
coordinates). -/
theorem claim_C3_witness :
    find_nearby_sightings (fun _ _ _ _ => 0) [] [] 7 500 10 true =
      .error (.httpError 404 "Entry not found") ∧
    find_nearby_sightings (fun _ _ _ _ => 0)
        [{ id := 7, text := "cat", createdAt := "t", nickname := none, location := none,
           location_normalized := none, location_lat := none, location_lon := none,
           cat_id := none }] [] 7 500 10 true =
      .error (.httpError 400
        "Entry has no coordinates. Use POST /entries/\x7bid\x7d/normalize-location first.") :=
  ⟨(claim_C3_nearby_errors (fun _ _ _ _ => 0) [] [] 7 500 10 true).1 rfl,
   (claim_C3_nearby_errors (fun _ _ _ _ => 0)
        [{ id := 7, text := "cat", createdAt := "t", nickname := none, location := none,
           location_normalized := none, location_lat := none, location_lon := none,
           cat_id := none }] [] 7 500 10 true).2 _ rfl (Or.inl rfl)⟩

/-! ## Claim C2 -/

/-- C2: for an existing entry and a validated `top_k ≥ 1`, `find_matches`
succeeds with a list that never contains the queried entry, has at most
`min top_k 20` elements, and whose members all carry a raw match score of
at least `min_score`. -/
theorem claim_C2_find_matches_guarantees
    (hav : ℚ → ℚ → ℚ → ℚ → ℚ) (entries : List EntryRow) (entry_id : ℤ)
    (top_k : ℕ) (min_score : ℚ) (base : EntryRow)
    (hbase : entries.find? (fun r => decide (r.id = entry_id)) = some base)
    (hk : 1 ≤ top_k) :
    ∃ l, find_matches hav entries entry_id top_k min_score = .ok l ∧
      l.length ≤ min top_k 20 ∧
      (∀ c ∈ l, c.candidate_id ≠ entry_id) ∧
      (∀ c ∈ l, min_score ≤ c.scoreRaw) := by
  simp only [find_matches, hbase]
  refine ⟨_, rfl, ?_, ?_, ?_⟩
  · have h1 : max 1 (min top_k 20) = min top_k 20 :=
      max_eq_right (le_min hk (by norm_num))
    calc (List.take (max 1 (min top_k 20)) _).length
        ≤ max 1 (min top_k 20) := List.length_take_le _ _
      _ = min top_k 20 := h1
  · intro c hc
    obtain ⟨r, hr, heq⟩ := List.mem_filterMap.mp (mem_sortOrd.mp (List.mem_of_mem_take hc))
    have hr2 := (List.mem_filter.mp (mem_sortOrd.mp hr)).2
    split at heq
    · cases heq
      exact of_decide_eq_true hr2
    · simp at heq
  · intro c hc
    obtain ⟨r, hr, heq⟩ := List.mem_filterMap.mp (mem_sortOrd.mp (List.mem_of_mem_take hc))
    split at heq
    · rename_i hcond
      cases heq
      exact hcond
    · simp at heq

/-- Witness for C2 at a concrete one-row store. -/
theorem claim_C2_witness :
    ∃ l, find_matches (fun _ _ _ _ => 0)
        [{ id := 7, text := "cat", createdAt := "t", nickname := none, location := none,
           location_normalized := none, location_lat := none, location_lon := none,
           cat_id := none }] 7 5 0 = .ok l ∧
      l.length ≤ min 5 20 ∧
      (∀ c ∈ l, c.candidate_id ≠ 7) ∧
      (∀ c ∈ l, 0 ≤ c.scoreRaw) :=
  claim_C2_find_matches_guarantees (fun _ _ _ _ => 0)
    [{ id := 7, text := "cat", createdAt := "t", nickname := none, location := none,
       location_normalized := none, location_lat := none, location_lon := none,
       cat_id := none }] 7 5 0
    { id := 7, text := "cat", createdAt := "t", nickname := none, location := none,
      location_normalized := none, location_lat := none, location_lon := none,
      cat_id := none } rfl (by norm_num)

/-! ## Claim C5 -/

/-- C5: `analyze_and_store` returns the stored analysis unchanged and
performs no write when the stored `text_hash` matches the hash of the
current text; on a hash mismatch or a missing row it returns a freshly
computed analysis stamped with the new `updatedAt` and upserts it keyed by
`entry_id`. -/
theorem claim_C5_analysis_cache (H : String → String) (now : String)
    (entries : List EntryRow) (analyses : List AnalysisRow) (entry_id : ℤ) (entry : EntryRow)
    (hentry : entries.find? (fun r => decide (r.id = entry_id)) = some entry) :
    (∀ ex, analyses.find? (fun a => decide (a.entry_id = entry_id)) = some ex →
      ex.text_hash = text_to_hash H entry.text →
      analyze_and_store H now entries analyses entry_id =
        .ok ({ entry_id := ex.entry_id, summary := ex.summary, tags := ex.tags,
               sentiment := ex.sentiment, updatedAt := ex.updatedAt }, analyses)) ∧
    (∀ ex, analyses.find? (fun a => decide (a.entry_id = entry_id)) = some ex →
      ex.text_hash ≠ text_to_hash H entry.text →
      analyze_and_store H now entries analyses entry_id =
        .ok ({ entry_id := entry_id, summary := baseline_summary entry.text 160,
               tags := baseline_tags entry.text 5, sentiment := baseline_sentiment entry.text,
               updatedAt := now },
          upsert_analysis analyses entry_id (text_to_hash H entry.text)
            (baseline_summary entry.text 160) (baseline_tags entry.text 5)
            (baseline_sentiment entry.text) now)) ∧
    (analyses.find? (fun a => decide (a.entry_id = entry_id)) = none →
      analyze_and_store H now entries analyses entry_id =
        .ok ({ entry_id := entry_id, summary := baseline_summary entry.text 160,
               tags := baseline_tags entry.text 5, sentiment := baseline_sentiment entry.text,
               updatedAt := now },
          upsert_analysis analyses entry_id (text_to_hash H entry.text)
            (baseline_summary entry.text 160) (baseline_tags entry.text 5)
            (baseline_sentiment entry.text) now)) := by
  refine ⟨?_, ?_, ?_⟩
  · intro ex hex hhash
    simp only [analyze_and_store, hentry, hex, if_pos hhash]
  · intro ex hex hhash
    simp only [analyze_and_store, hentry, hex, if_neg hhash]
  · intro hnone
    simp only [analyze_and_store, hentry, hnone]

/-- Witness for C5: a cache hit, a stale hash, and a missing row, on a
concrete store with a constant digest. -/
theorem claim_C5_witness :
    (analyze_and_store (fun _ => "h") "t2"
        [{ id := 7, text := "good cat", createdAt := "t", nickname := none, location := none,
           location_normalized := none, location_lat := none, location_lon := none,
           cat_id := none }]
        [{ entry_id := 7, text_hash := "h", summary := "s", tags := ["cat"],
           sentiment := "positive", createdAt := "t0", updatedAt := "t1" }] 7 =
      .ok ({ entry_id := 7, summary := "s", tags := ["cat"], sentiment := "positive",
             updatedAt := "t1" },
        [{ entry_id := 7, text_hash := "h", summary := "s", tags := ["cat"],
           sentiment := "positive", createdAt := "t0", updatedAt := "t1" }])) ∧
    (analyze_and_store (fun _ => "h") "t2"
        [{ id := 7, text := "good cat", createdAt := "t", nickname := none, location := none,
           location_normalized := none, location_lat := none, location_lon := none,
           cat_id := none }]
        [{ entry_id := 7, text_hash := "stale", summary := "s", tags := ["cat"],
           sentiment := "positive", createdAt := "t0", updatedAt := "t1" }] 7 =
      .ok ({ entry_id := 7, summary := baseline_summary "good cat" 160,
             tags := baseline_tags "good cat" 5, sentiment := baseline_sentiment "good cat",
             updatedAt := "t2" },
        upsert_analysis
          [{ entry_id := 7, text_hash := "stale", summary := "s", tags := ["cat"],
             sentiment := "positive", createdAt := "t0", updatedAt := "t1" }] 7
          (text_to_hash (fun _ => "h") "good cat") (baseline_summary "good cat" 160)
          (baseline_tags "good cat" 5) (baseline_sentiment "good cat") "t2")) ∧
    (analyze_and_store (fun _ => "h") "t2"
        [{ id := 7, text := "good cat", createdAt := "t", nickname := none, location := none,
           location_normalized := none, location_lat := none, location_lon := none,
           cat_id := none }] [] 7 =
      .ok ({ entry_id := 7, summary := baseline_summary "good cat" 160,
             tags := baseline_tags "good cat" 5, sentiment := baseline_sentiment "good cat",
             updatedAt := "t2" },
        upsert_analysis [] 7 (text_to_hash (fun _ => "h") "good cat")
          (baseline_summary "good cat" 160) (baseline_tags "good cat" 5)
          (baseline_sentiment "good cat") "t2")) :=
  ⟨(claim_C5_analysis_cache (fun _ => "h") "t2"
      [{ id := 7, text := "good cat", createdAt := "t", nickname := none, location := none,
         location_normalized := none, location_lat := none, location_lon := none,
         cat_id := none }]
      [{ entry_id := 7, text_hash := "h", summary := "s", tags := ["cat"],
         sentiment := "positive", createdAt := "t0", updatedAt := "t1" }] 7
      { id := 7, text := "good cat", createdAt := "t", nickname := none, location := none,
        location_normalized := none, location_lat := none, location_lon := none,
        cat_id := none } rfl).1
      { entry_id := 7, text_hash := "h", summary := "s", tags := ["cat"],
        sentiment := "positive", createdAt := "t0", updatedAt := "t1" } rfl rfl,
   (claim_C5_analysis_cache (fun _ => "h") "t2"
      [{ id := 7, text := "good cat", createdAt := "t", nickname := none, location := none,
         location_normalized := none, location_lat := none, location_lon := none,
         cat_id := none }]
      [{ entry_id := 7, text_hash := "stale", summary := "s", tags := ["cat"],
         sentiment := "positive", createdAt := "t0", updatedAt := "t1" }] 7
      { id := 7, text := "good cat", createdAt := "t", nickname := none, location := none,
        location_normalized := none, location_lat := none, location_lon := none,
        cat_id := none } rfl).2.1
      { entry_id := 7, text_hash := "stale", summary := "s", tags := ["cat"],
        sentiment := "positive", createdAt := "t0", updatedAt := "t1" } rfl (by decide),
   (claim_C5_analysis_cache (fun _ => "h") "t2"
      [{ id := 7, text := "good cat", createdAt := "t", nickname := none, location := none,
         location_normalized := none, location_lat := none, location_lon := none,
         cat_id := none }] [] 7
      { id := 7, text := "good cat", createdAt := "t", nickname := none, location := none,
        location_normalized := none, location_lat := none, location_lon := none,
        cat_id := none } rfl).2.2 rfl⟩

/-! ## Claim C6 -/

theorem nlfree_split (a : List Char) (r : List Char) :
    ∀ (b s : List Char), '\n' ∉ a → '\n' ∉ b →
      a ++ '\n' :: r = b ++ '\n' :: s → a = b ∧ r = s := by
  induction a with
  | nil =>
    intro b s _ hb h
    cases b with
    | nil => simpa using h
    | cons c b' =>
      rw [List.nil_append, List.cons_append, List.cons.injEq] at h
      exact absurd (h.1 ▸ List.mem_cons_self c b') hb
  | cons c a' ih =>
    intro b s ha hb h
    cases b with
    | nil =>
      rw [List.nil_append, List.cons_append, List.cons.injEq] at h
      exact absurd (h.1 ▸ List.mem_cons_self c a') ha
    | cons d b' =>
      rw [List.cons_append, List.cons_append, List.cons.injEq] at h
      have ha' : '\n' ∉ a' := fun hm => ha (List.mem_cons_of_mem c hm)
      have hb' : '\n' ∉ b' := fun hm => hb (List.mem_cons_of_mem d hm)
      obtain ⟨hab, hrs⟩ := ih b' s ha' hb' h.2
      exact ⟨by rw [h.1, hab], hrs⟩

theorem joinSep_injective_nlfree :
    ∀ (p q : List (List Char)), (∀ s ∈ p, '\n' ∉ s) → (∀ s ∈ q, '\n' ∉ s) →
      (p = [] ↔ q = []) → joinSep p = joinSep q → p = q := by
  intro p
  induction p with
  | nil =>
    intro q _ _ hiff _
    exact (hiff.mp rfl).symm
  | cons a as ih =>
    intro q hp hq hiff h
    cases q with
    | nil => simp at hiff
    | cons b bs =>
      cases as with
      | nil =>
        cases bs with
        | nil =>
          have : a = b := h
          rw [this]
        | cons b' bs' =>
          exfalso
          have hmem : '\n' ∈ a := by
            have h' : a = b ++ (SEP ++ joinSep (b' :: bs')) := h
            rw [h']
            refine List.mem_append.mpr (Or.inr ?_)
            exact List.mem_append.mpr (Or.inl (by decide))
          exact hp a (List.mem_cons_self a []) hmem
      | cons a' as' =>
        cases bs with
        | nil =>
          exfalso
          have hmem : '\n' ∈ b := by
            have h' : b = a ++ (SEP ++ joinSep (a' :: as')) := h.symm
            rw [h']
            refine List.mem_append.mpr (Or.inr ?_)
            exact List.mem_append.mpr (Or.inl (by decide))
          exact hq b (List.mem_cons_self b []) hmem
        | cons b' bs' =>
          have h' : a ++ '\n' :: ('-' :: '-' :: '-' :: '\n' :: joinSep (a' :: as')) =
              b ++ '\n' :: ('-' :: '-' :: '-' :: '\n' :: joinSep (b' :: bs')) := h
          obtain ⟨hab, htail⟩ := nlfree_split a _ b _
            (hp a (List.mem_cons_self a _)) (hq b (List.mem_cons_self b _)) h'
          simp only [List.cons.injEq, true_and] at htail
          have htl : joinSep (a' :: as') = joinSep (b' :: bs') := htail
          have hrec := ih (b' :: bs')
            (fun s hs => hp s (List.mem_cons_of_mem a hs))
            (fun s hs => hq s (List.mem_cons_of_mem b hs))
            (by simp) htl
          rw [hab, hrec]

theorem joinSep_injective_nlfree_strong
    (p q : List (List Char)) (hp : ∀ s ∈ p, '\n' ∉ s) (hq : ∀ s ∈ q, '\n' ∉ s)
    (h1 : ¬(p = [] ∧ q = [[]])) (h2 : ¬(p = [[]] ∧ q = []))
    (h : joinSep p = joinSep q) : p = q := by
  cases p with
  | nil =>
    cases q with
    | nil => rfl
    | cons b bs =>
      cases bs with
      | nil =>
        have hb : ([] : List Char) = b := h
        exact absurd ⟨rfl, by rw [← hb]⟩ h1
      | cons b' bs' =>
        exfalso
        have h' : ([] : List Char) = b ++ (SEP ++ joinSep (b' :: bs')) := h
        have hmem : '\n' ∈ ([] : List Char) := by
          rw [h']
          exact List.mem_append.mpr (Or.inr (List.mem_append.mpr (Or.inl (by decide))))
        simp at hmem
  | cons a as =>
    cases q with
    | nil =>
      cases as with
      | nil =>
        have ha : a = ([] : List Char) := h
        exact absurd ⟨by rw [ha], rfl⟩ h2
      | cons a' as' =>
        exfalso
        have h' : a ++ (SEP ++ joinSep (a' :: as')) = ([] : List Char) := h
        have hmem : '\n' ∈ ([] : List Char) := by
          rw [← h']
          exact List.mem_append.mpr (Or.inr (List.mem_append.mpr (Or.inl (by decide))))
        simp at hmem
    | cons b bs =>
      exact joinSep_injective_nlfree (a :: as) (b :: bs) hp hq (by simp) h

/-- C6 counterexample: the claim "any two distinct part lists feed
different strings to the digest" is false as stated — the distinct lists
`["A", "B"]` and `["A\n---\nB"]` are joined to the same string, so every
digest (in particular the source's SHA-256) maps them to the same value. -/
theorem claim_C6_counterexample :
    (([['A'], ['B']] : List (List Char)) ≠ [['A', '\n', '-', '-', '-', '\n', 'B']]) ∧
    joinSep [['A'], ['B']] = joinSep [['A', '\n', '-', '-', '-', '\n', 'B']] ∧
    make_context_hash (fun l => (⟨l⟩ : String)) [['A'], ['B']] =
      make_context_hash (fun l => (⟨l⟩ : String)) [['A', '\n', '-', '-', '-', '\n', 'B']] :=
  ⟨by decide, by decide, by decide⟩

/-- C6 (amended): `make_context_hash` is deterministic; the documented
ambiguous concatenation `["A", "B"]` versus `["AB"]` feeds different
strings to the digest, so their digests differ barring a collision
(collision-freedom is the hypothesis `hH`); and any two distinct part
lists whose parts contain no newline character feed different strings,
with the single exception of the pair `[]` versus `[""]` (both join to the
empty string).  Lists whose parts embed the `"\n---\n"` separator may
collide, as the counterexample shows, so the original universal claim is
restricted to separator-free (newline-free) parts. -/
theorem claim_C6_context_hash_amended (H : List Char → String)
    (hH : ∀ x y, H x = H y → x = y) :
    (∀ p q, p = q → make_context_hash H p = make_context_hash H q) ∧
    make_context_hash H [['A'], ['B']] ≠ make_context_hash H [['A', 'B']] ∧
    (∀ p q : List (List Char), (∀ s ∈ p, '\n' ∉ s) → (∀ s ∈ q, '\n' ∉ s) →
      ¬(p = [] ∧ q = [[]]) → ¬(p = [[]] ∧ q = []) → p ≠ q →
      make_context_hash H p ≠ make_context_hash H q) := by
  refine ⟨fun p q h => by rw [h], ?_, ?_⟩
  · intro h
    exact absurd (hH _ _ h) (by decide)
  · intro p q hp hq h1 h2 hne h
    exact hne (joinSep_injective_nlfree_strong p q hp hq h1 h2 (hH _ _ h))

/-- Witness for C6 with the injective digest `String.mk`. -/
theorem claim_C6_witness :
    make_context_hash (fun l => (⟨l⟩ : String)) [['A'], ['B']] ≠
      make_context_hash (fun l => (⟨l⟩ : String)) [['A', 'B']] ∧
    make_context_hash (fun l => (⟨l⟩ : String)) [['a']] ≠
      make_context_hash (fun l => (⟨l⟩ : String)) [['b']] ∧
    make_context_hash (fun l => (⟨l⟩ : String)) [] ≠
      make_context_hash (fun l => (⟨l⟩ : String)) [['a']] := by
  have hH : ∀ x y : List Char, (fun l => (⟨l⟩ : String)) x = (fun l => (⟨l⟩ : String)) y → x = y := by
    intro x y h
    injection h
  exact ⟨(claim_C6_context_hash_amended (fun l => (⟨l⟩ : String)) hH).2.1,
    (claim_C6_context_hash_amended (fun l => (⟨l⟩ : String)) hH).2.2 [['a']] [['b']]
      (by decide) (by decide) (by decide) (by decide) (by decide),
    (claim_C6_context_hash_amended (fun l => (⟨l⟩ : String)) hH).2.2 [] [['a']]
      (by decide) (by decide) (by decide) (by decide) (by decide)⟩

/-! ## Claim C7 -/

/-- C7 (amended): the candidates returned by `find_matches` are sorted in
descending order of their stored `score`, which is the raw
`compute_match_score` value rounded to 3 decimals (the source sorts on the
rounded value, not on the raw one — see the counterexample), and any two
candidates whose stored scores are equal appear in the original scan
order, which is id descending (newest first). -/
theorem claim_C7_matches_order_amended
    (hav : ℚ → ℚ → ℚ → ℚ → ℚ) (entries : List EntryRow) (entry_id : ℤ)
    (top_k : ℕ) (min_score : ℚ) (base : EntryRow)
    (hbase : entries.find? (fun r => decide (r.id = entry_id)) = some base) :
    ∃ l, find_matches hav entries entry_id top_k min_score = .ok l ∧
      l.Pairwise (fun a b => b.score ≤ a.score) ∧
      l.Pairwise (fun a b => a.score = b.score → b.candidate_id ≤ a.candidate_id) := by
  simp only [find_matches, hbase]
  refine ⟨_, rfl, ?_, ?_⟩
  · refine List.Pairwise.sublist (List.take_sublist _ _) ?_
    refine List.Pairwise.imp (fun h => ?_)
      (pairwise_sortOrd (fun a b : MatchCandidate => decide (a.score < b.score))
        (fun a b h => by
          simp only [decide_eq_true_eq] at h
          simp only [decide_eq_false_iff_not]
          exact lt_asymm h)
        (fun a b c hab hbc => by
          simp only [decide_eq_false_iff_not, not_lt] at hab hbc ⊢
          exact hbc.trans hab)
        _)
    simpa only [decide_eq_false_iff_not, not_lt] using h
  · refine List.Pairwise.sublist (List.take_sublist _ _) ?_
    have hrows := pairwise_sortOrd (fun a b : EntryRow => decide (a.id < b.id))
      (fun a b h => by
        simp only [decide_eq_true_eq] at h
        simp only [decide_eq_false_iff_not]
        exact lt_asymm h)
      (fun a b c hab hbc => by
        simp only [decide_eq_false_iff_not, not_lt] at hab hbc ⊢
        exact hbc.trans hab)
      (entries.filter (fun r => decide (r.id ≠ entry_id)))
    refine List.Pairwise.imp (fun h => ?_)
      (pairwise_tie_sortOrd (fun a b : MatchCandidate => decide (a.score < b.score))
        (fun a b => b.candidate_id ≤ a.candidate_id) _
        (List.pairwise_filterMap.mpr (hrows.imp ?_)))
    · intro heq
      exact h (by simp [heq]) (by simp [heq])
    · intro r r' hid x hx y hy
      simp only [decide_eq_false_iff_not, not_lt] at hid
      split at hx
      · cases hx
        split at hy
        · cases hy
          exact hid
        · simp at hy
      · simp at hx

/-- C7 counterexample: the original claim says the result is sorted by the
raw `compute_match_score` value.  With base entry 1 at the origin and two
candidates at raw scores `0.33315` (id 3, scanned first) and `0.33335`
(id 2), both scores round to `0.333`, the stable sort keeps scan order,
and the returned list `[id 3, id 2]` is not sorted by the raw score. -/
theorem claim_C7_counterexample :
    (okList (find_matches (fun _ _ cla _ => if cla = 30 then 3337/10 else 3333/10)
        [{ id := 1, text := "", createdAt := "t1", nickname := none, location := none,
           location_normalized := none, location_lat := some 0, location_lon := some 0,
           cat_id := none },
         { id := 3, text := "", createdAt := "t3", nickname := none, location := none,
           location_normalized := none, location_lat := some 30, location_lon := some 0,
           cat_id := none },
         { id := 2, text := "", createdAt := "t2", nickname := none, location := none,
           location_normalized := none, location_lat := some 31, location_lon := some 0,
           cat_id := none }] 1 5 (15/100))).map (fun c => (c.candidate_id, c.scoreRaw)) =
      [(3, 6663/20000), (2, 6667/20000)] ∧
    ¬ (okList (find_matches (fun _ _ cla _ => if cla = 30 then 3337/10 else 3333/10)
        [{ id := 1, text := "", createdAt := "t1", nickname := none, location := none,
           location_normalized := none, location_lat := some 0, location_lon := some 0,
           cat_id := none },
         { id := 3, text := "", createdAt := "t3", nickname := none, location := none,
           location_normalized := none, location_lat := some 30, location_lon := some 0,
           cat_id := none },
         { id := 2, text := "", createdAt := "t2", nickname := none, location := none,
           location_normalized := none, location_lat := some 31, location_lon := some 0,
           cat_id := none }] 1 5 (15/100))).Pairwise
      (fun a b => b.scoreRaw ≤ a.scoreRaw) := by
  have ht : tokenize_keywords "" = ∅ := rfl
  have hj : jaccard_similarity ∅ ∅ = 0 := rfl
  have hs3 : (compute_match_score (fun _ _ cla _ => if cla = 30 then 3337/10 else 3333/10)
      "" "" "" "" (some 0) (some 0) (some 30) (some 0)).1 = 6663/20000 := by
    rw [compute_match_score_fst_coords, ht, hj]
    norm_num [max_def]
  have hs2 : (compute_match_score (fun _ _ cla _ => if cla = 30 then 3337/10 else 3333/10)
      "" "" "" "" (some 0) (some 0) (some 31) (some 0)).1 = 6667/20000 := by
    rw [compute_match_score_fst_coords, ht, hj]
    norm_num [max_def]
  have hr3 : roundTo 3 (6663/20000) = 333/1000 := by
    unfold roundTo roundQ
    norm_num
  have hr2 : roundTo 3 (6667/20000) = 333/1000 := by
    unfold roundTo roundQ
    norm_num
  constructor
  · norm_num [find_matches, okList, sortOrd, insertOrd, hs3, hs2, hr3, hr2,
      List.filterMap_cons, List.filterMap_nil]
  · norm_num [find_matches, okList, sortOrd, insertOrd, hs3, hs2, hr3, hr2,
      List.filterMap_cons, List.filterMap_nil, List.pairwise_cons]

/-- Witness for the amended C7 at a concrete one-row store. -/
theorem claim_C7_witness :
    ∃ l, find_matches (fun _ _ _ _ => 0)
        [{ id := 7, text := "cat", createdAt := "t", nickname := none, location := none,
           location_normalized := none, location_lat := none, location_lon := none,
           cat_id := none }] 7 5 (15/100) = .ok l ∧
      l.Pairwise (fun a b => b.score ≤ a.score) ∧
      l.Pairwise (fun a b => a.score = b.score → b.candidate_id ≤ a.candidate_id) :=
  claim_C7_matches_order_amended (fun _ _ _ _ => 0)
    [{ id := 7, text := "cat", createdAt := "t", nickname := none, location := none,
       location_normalized := none, location_lat := none, location_lon := none,
       cat_id := none }] 7 5 (15/100)
    { id := 7, text := "cat", createdAt := "t", nickname := none, location := none,
      location_normalized := none, location_lat := none, location_lon := none,
      cat_id := none } rfl

/-! ## Claim C4 -/

/-- C4 (amended): on a successful `find_nearby_sightings` call every
returned candidate comes from a stored row that has both coordinates, its
raw haversine distance from the base entry is at most `radius_meters`
(strictly farther candidates are discarded), the results are sorted
ascending by the stored `distance_meters`, which is the raw distance
rounded to 1 decimal (the source sorts on the rounded value, not the raw
one — see the counterexample), and at most `top_k` results are returned. -/
theorem claim_C4_nearby_guarantees
    (hav : ℚ → ℚ → ℚ → ℚ → ℚ) (entries : List EntryRow) (cats : List CatRow)
    (entry_id : ℤ) (radius_meters : ℚ) (top_k : ℕ) (include_assigned : Bool)
    (base : EntryRow) (base_lat base_lon : ℚ)
    (hbase : entries.find? (fun r => decide (r.id = entry_id)) = some base)
    (hlat : base.location_lat = some base_lat) (hlon : base.location_lon = some base_lon) :
    ∃ l, find_nearby_sightings hav entries cats entry_id radius_meters top_k include_assigned =
        .ok l ∧
      l.length ≤ top_k ∧
      (∀ c ∈ l, (∃ r ∈ entries, r.id = c.entry_id ∧ r.location_lat = some c.candLat ∧
          r.location_lon = some c.candLon) ∧
        c.distRaw = hav base_lat base_lon c.candLat c.candLon ∧
        c.distRaw ≤ radius_meters) ∧
      l.Pairwise (fun a b => a.distance_meters ≤ b.distance_meters) := by
  simp only [find_nearby_sightings, hbase, hlat, hlon]
  refine ⟨_, rfl, ?_, ?_, ?_⟩
  · exact List.length_take_le _ _
  · intro c hc
    obtain ⟨r, hr, heq⟩ := List.mem_filterMap.mp (mem_sortOrd.mp (List.mem_of_mem_take hc))
    have hrmem : r ∈ entries := List.mem_of_mem_filter (mem_sortOrd.mp hr)
    split at heq
    · rename_i cand_lat cand_lon hrlat hrlon
      split at heq
      · simp at heq
      · rename_i hdist
        cases heq
        exact ⟨⟨r, hrmem, rfl, hrlat, hrlon⟩, rfl, not_lt.mp hdist⟩
    · simp at heq
  · refine List.Pairwise.sublist (List.take_sublist _ _) ?_
    refine List.Pairwise.imp (fun h => ?_)
      (pairwise_sortOrd (fun a b : NearbySighting => decide (b.distance_meters < a.distance_meters))
        (fun a b h => by
          simp only [decide_eq_true_eq] at h
          simp only [decide_eq_false_iff_not]
          exact lt_asymm h)
        (fun a b c hab hbc => by
          simp only [decide_eq_false_iff_not, not_lt] at hab hbc ⊢
          exact hab.trans hbc)
        _)
    simpa only [decide_eq_false_iff_not, not_lt] using h

/-- Witness for the amended C4 at a concrete two-row store. -/
theorem claim_C4_witness :
    ∃ l, find_nearby_sightings (fun _ _ _ _ => 100)
        [{ id := 1, text := "a", createdAt := "t1", nickname := none, location := none,
           location_normalized := none, location_lat := some 0, location_lon := some 0,
           cat_id := none },
         { id := 2, text := "b", createdAt := "t2", nickname := none, location := none,
           location_normalized := none, location_lat := some 1, location_lon := some 1,
           cat_id := none }] [] 1 500 10 true = .ok l ∧
      l.length ≤ 10 ∧
      (∀ c ∈ l, (∃ r ∈ ([⟨1, "a", "t1", none, none, none, some 0, some 0, none⟩,
          ⟨2, "b", "t2", none, none, none, some 1, some 1, none⟩] : List EntryRow),
          r.id = c.entry_id ∧
          r.location_lat = some c.candLat ∧ r.location_lon = some c.candLon) ∧
        c.distRaw = (fun _ _ _ _ => (100 : ℚ)) 0 0 c.candLat c.candLon ∧
        c.distRaw ≤ 500) ∧
      l.Pairwise (fun a b => a.distance_meters ≤ b.distance_meters) :=
  claim_C4_nearby_guarantees (fun _ _ _ _ => 100)
    [{ id := 1, text := "a", createdAt := "t1", nickname := none, location := none,
       location_normalized := none, location_lat := some 0, location_lon := some 0,
       cat_id := none },
     { id := 2, text := "b", createdAt := "t2", nickname := none, location := none,
       location_normalized := none, location_lat := some 1, location_lon := some 1,
       cat_id := none }] [] 1 500 10 true
    { id := 1, text := "a", createdAt := "t1", nickname := none, location := none,
      location_normalized := none, location_lat := some 0, location_lon := some 0,
      cat_id := none } 0 0 rfl rfl rfl

/-- C4 counterexample: the original claim says the result is sorted by the
raw haversine distance.  With candidates at raw distances `100.44` (id 3,
scanned first) and `100.41` (id 2), both distances round to `100.4`, the
stable sort keeps scan order, and the returned list `[id 3, id 2]` is not
sorted by the raw distance. -/
theorem claim_C4_counterexample :
    (okList (find_nearby_sightings (fun _ _ cla _ => if cla = 30 then 2511/25 else 10041/100)
        [{ id := 1, text := "", createdAt := "t1", nickname := none, location := none,
           location_normalized := none, location_lat := some 0, location_lon := some 0,
           cat_id := none },
         { id := 3, text := "", createdAt := "t3", nickname := none, location := none,
           location_normalized := none, location_lat := some 30, location_lon := some 0,
           cat_id := none },
         { id := 2, text := "", createdAt := "t2", nickname := none, location := none,
           location_normalized := none, location_lat := some 31, location_lon := some 0,
           cat_id := none }] [] 1 500 10 true)).map (fun c => (c.entry_id, c.distRaw)) =
      [(3, 2511/25), (2, 10041/100)] ∧
    ¬ (okList (find_nearby_sightings (fun _ _ cla _ => if cla = 30 then 2511/25 else 10041/100)
        [{ id := 1, text := "", createdAt := "t1", nickname := none, location := none,
           location_normalized := none, location_lat := some 0, location_lon := some 0,
           cat_id := none },
         { id := 3, text := "", createdAt := "t3", nickname := none, location := none,
           location_normalized := none, location_lat := some 30, location_lon := some 0,
           cat_id := none },
         { id := 2, text := "", createdAt := "t2", nickname := none, location := none,
           location_normalized := none, location_lat := some 31, location_lon := some 0,
           cat_id := none }] [] 1 500 10 true)).Pairwise
      (fun a b => a.distRaw ≤ b.distRaw) := by
  have hr3 : roundTo 1 (2511/25) = 502/5 := by
    unfold roundTo roundQ
    norm_num
  have hr2 : roundTo 1 (10041/100) = 502/5 := by
    unfold roundTo roundQ
    norm_num
  constructor
  · norm_num [find_nearby_sightings, okList, sortOrd, insertOrd, hr3, hr2,
      List.filterMap_cons, List.filterMap_nil]
  · norm_num [find_nearby_sightings, okList, sortOrd, insertOrd, hr3, hr2,
      List.filterMap_cons, List.filterMap_nil, List.pairwise_cons]
